import Mathlib

/-!
Shallow embedding of the freelan routes-message codec,
src/libs/freelan/src/routes_message.cpp.

The codec serializes a version number and a set of IP routes
(IPv4 or IPv6, each with an optional gateway of the same family)
into a tag-discriminated record format, and parses it back.

Buffers are modelled as total byte functions over Nat indices; the
size_t arithmetic on remaining lengths is modelled with explicit
wrap-around modulo 2 to the 64 where the source can underflow.
-/

/-- Decidable equality of result values, so that concrete runs of the
codec can be checked by evaluation. -/
instance {ε α : Type} [DecidableEq ε] [DecidableEq α] : DecidableEq (Except ε α) := fun x y =>
  match x, y with
  | Except.ok a, Except.ok b => decidable_of_iff (a = b) (by simp)
  | Except.error a, Except.error b => decidable_of_iff (a = b) (by simp)
  | Except.ok _, Except.error _ => Decidable.isFalse (by simp)
  | Except.error _, Except.ok _ => Decidable.isFalse (by simp)

namespace Freelan

/-- A byte, as produced by reads of a uint8_t buffer. -/
abbrev Byte := Fin 256

/-- Raw memory: the byte visible at every index.  Indices at or past the
declared capacity model the memory surrounding the buffer, so reads and
writes beyond the capacity are observable in the model. -/
abbrev Mem := Nat → Byte

/-- Truncating cast of a natural number to a byte, static_cast to uint8_t. -/
def byteOf (x : Nat) : Byte := ⟨x % 256, Nat.mod_lt _ (by norm_num)⟩

/-- Write one byte at index i. -/
def setByte (m : Mem) (i : Nat) (b : Byte) : Mem :=
  fun j => if j = i then b else m j

/-- std::copy of n source bytes to indices i, i+1, ..., i+n-1. -/
def copyBytes (m : Mem) (i n : Nat) (src : Fin n → Byte) : Mem :=
  fun j => if h : i ≤ j ∧ j < i + n then src ⟨j - i, by omega⟩ else m j

/-- buffer_tools set of uint32_t combined with htonl: the four bytes of
v cast to uint32_t, stored most significant first at index i. -/
def storeBE32 (m : Mem) (i v : Nat) : Mem :=
  let w := v % 2 ^ 32
  setByte (setByte (setByte (setByte m i (byteOf (w / 2 ^ 24)))
    (i + 1) (byteOf (w / 2 ^ 16))) (i + 2) (byteOf (w / 2 ^ 8))) (i + 3) (byteOf w)

/-- ntohl of buffer_tools get of uint32_t at index 0: the first four bytes
read as a big-endian 32-bit value. -/
def readBE32 (m : Mem) : Nat :=
  (m 0).val * 2 ^ 24 + (m 1).val * 2 ^ 16 + (m 2).val * 2 ^ 8 + (m 3).val

/-- The modulus of size_t arithmetic. -/
def WORD_MOD : Nat := 2 ^ 64

/-- size_t subtraction a - b for b at most 2 to the 64, wrapping modulo
2 to the 64.  Models the unguarded unsigned subtractions of the source. -/
def wsub (a b : Nat) : Nat := (a + (WORD_MOD - b)) % WORD_MOD

/-- asiotap base_ip_route of an address family whose addresses are n
bytes wide: the network address bytes, the prefix length (an unsigned
int in the source, here a Nat), and the optional gateway address. -/
structure BaseIpRoute (n : Nat) where
  addr : Fin n → Byte
  pfx_len : Nat
  gateway : Option (Fin n → Byte)

instance {n : Nat} : DecidableEq (BaseIpRoute n) := fun a b =>
  decidable_of_iff (a.addr = b.addr ∧ a.pfx_len = b.pfx_len ∧ a.gateway = b.gateway)
    (by cases a; cases b; simp [BaseIpRoute.mk.injEq])

/-- asiotap ip_route: the variant over the two address families. -/
inductive IpRoute where
  | v4 (r : BaseIpRoute 4)
  | v6 (r : BaseIpRoute 16)

instance : DecidableEq IpRoute := fun a b =>
  match a, b with
  | IpRoute.v4 r, IpRoute.v4 s => decidable_of_iff (r = s) (by simp)
  | IpRoute.v6 r, IpRoute.v6 s => decidable_of_iff (r = s) (by simp)
  | IpRoute.v4 _, IpRoute.v6 _ => Decidable.isFalse (by simp)
  | IpRoute.v6 _, IpRoute.v4 _ => Decidable.isFalse (by simp)

/-- asiotap ip_route_set.  Modelled as the list of members in insertion
order; insertion deduplicates, matching std::set membership semantics. -/
abbrev IpRouteSet := List IpRoute

/-- std::set insert: a new element is added, a duplicate collapses. -/
def insertRoute (s : IpRouteSet) (r : IpRoute) : IpRouteSet :=
  if r ∈ s then s else s ++ [r]

/-- The four decode or encode failures named by the design; the source
throws std::runtime_error with a matching message for all but
truncatedHeader, which no source path raises. -/
inductive RoutesError where
  | bufferTooSmall
  | truncatedHeader
  | truncatedRecord
  | unknownRecordType
deriving DecidableEq

/-- ip_network_address_type, routes_message.cpp lines 54-60. -/
def INAT_IPV4 : Nat := 1

def INAT_IPV4_GATEWAY : Nat := 2

def INAT_IPV6 : Nat := 3

def INAT_IPV6_GATEWAY : Nat := 4

/-- get_address_type specialization for address_v4, lines 65-69. -/
def get_address_type_v4 (has_gateway : Bool) : Nat :=
  if has_gateway then INAT_IPV4_GATEWAY else INAT_IPV4

/-- get_address_type specialization for address_v6, lines 71-75. -/
def get_address_type_v6 (has_gateway : Bool) : Nat :=
  if has_gateway then INAT_IPV6_GATEWAY else INAT_IPV6

/-- The unconditional head writes of the representation visitor (lines
115-118): the tag byte chosen by get_address_type from the gateway
presence, the prefix-length byte, and the n network address bytes,
written at offsets ofs, ofs + 1 and ofs + 2. -/
def write_record_head (n : Nat) (tagOf : Bool → Nat) (r : BaseIpRoute n)
    (buf : Mem) (ofs : Nat) : Mem :=
  copyBytes
    (setByte (setByte buf ofs (byteOf (tagOf r.gateway.isSome))) (ofs + 1) (byteOf r.pfx_len))
    (ofs + 2) n r.addr

/-- ip_network_address_representation operator() (lines 100-134): write
one route record at offset ofs into a buffer with buf_len remaining
bytes.  Returns the representation size, or the error thrown, together
with the memory as mutated up to that point; the source writes the
record head through the caller's pointer before the gateway capacity
check can throw. -/
def write_base_route (n : Nat) (tagOf : Bool → Nat) (r : BaseIpRoute n)
    (buf : Mem) (ofs buf_len : Nat) : Except RoutesError Nat × Mem :=
  if buf_len < 2 + n then (Except.error RoutesError.bufferTooSmall, buf)
  else
    match r.gateway with
    | none => (Except.ok (2 + n), write_record_head n tagOf r buf ofs)
    | some gw =>
      if buf_len < 2 + n + n then
        (Except.error RoutesError.bufferTooSmall, write_record_head n tagOf r buf ofs)
      else
        (Except.ok (2 + n + n), copyBytes (write_record_head n tagOf r buf ofs) (ofs + 2 + n) n gw)

/-- boost apply_visitor of the representation writer over the ip_route
variant (line 253): dispatch on the address family. -/
def write_route (ir : IpRoute) (buf : Mem) (ofs buf_len : Nat) :
    Except RoutesError Nat × Mem :=
  match ir with
  | IpRoute.v4 r => write_base_route 4 get_address_type_v4 r buf ofs buf_len
  | IpRoute.v6 r => write_base_route 16 get_address_type_v6 r buf ofs buf_len

/-- Modelled from the spec: HEADER_LENGTH of the generic message
envelope (declared in message.hpp, which is not under src); the spec
describes a fixed-size generic envelope header that precedes the
payload.  The fscp envelope header is four bytes wide. -/
def HEADER_LENGTH : Nat := 4

/-- Modelled from the spec: message::write of the generic envelope (not
under src).  Per the spec it finalizes the envelope length field from
the payload byte count, fails when the buffer cannot hold header plus
payload, and the routes encoder returns the total number of payload
bytes written. -/
def message_write (buf_len required_size : Nat) : Except RoutesError Nat :=
  if buf_len < HEADER_LENGTH + required_size then Except.error RoutesError.bufferTooSmall
  else Except.ok required_size

/-- The per-route loop of routes_message::write (lines 251-258): apply
the representation writer to each route in iteration order, advancing
the write offset and decrementing the remaining length by the count
written, and accumulating required_size.  On success the visitor's
returned count never exceeds the remaining length, so the decrement
cannot underflow. -/
def write_routes_loop (rs : List IpRoute) (buf : Mem) (ofs buf_len required : Nat) :
    Except RoutesError Nat × Mem :=
  match rs with
  | [] => (Except.ok required, buf)
  | r :: rest =>
    match write_route r buf ofs buf_len with
    | (Except.error e, b) => (Except.error e, b)
    | (Except.ok count, b) =>
      write_routes_loop rest b (ofs + count) (buf_len - count) (required + count)

/-- routes_message::write after the initial header check (lines
241-260): the version field is stored big-endian at the payload start
with no further capacity check, the remaining length is decremented by
four with size_t wrap-around, the routes are written, and the envelope
writer finalizes the message. -/
def write_after_header (buf : Mem) (buf_len v : Nat) (rs : List IpRoute) :
    Except RoutesError Nat × Mem :=
  let buf1 := storeBE32 buf HEADER_LENGTH v
  match write_routes_loop rs buf1 (HEADER_LENGTH + 4) (wsub (buf_len - HEADER_LENGTH) 4) 4 with
  | (Except.error e, b) => (Except.error e, b)
  | (Except.ok required, b) => (message_write buf_len required, b)

/-- routes_message::write (lines 234-261): fail when the buffer cannot
hold the envelope header, otherwise write version then routes. -/
def routes_message_write (buf : Mem) (buf_len v : Nat) (rs : List IpRoute) :
    Except RoutesError Nat × Mem :=
  if buf_len < HEADER_LENGTH then (Except.error RoutesError.bufferTooSmall, buf)
  else write_after_header buf buf_len v rs

/-- The templated read_next_ip_route (lines 141-186): after the tag has
been consumed, read the prefix-length byte, the n address bytes and,
when has_gateway, n gateway bytes, from offset ofs with buf_len bytes
remaining.  Returns the route together with the number of bytes
consumed; every throw of the source maps to truncatedRecord. -/
def read_next_ip_route_typed (n : Nat) (has_gateway : Bool) (mem : Mem)
    (ofs buf_len : Nat) : Except RoutesError (BaseIpRoute n × Nat) :=
  if buf_len = 0 then Except.error RoutesError.truncatedRecord
  else
    let pfx := (mem ofs).val
    let ofs1 := ofs + 1
    let len1 := buf_len - 1
    if len1 < n then Except.error RoutesError.truncatedRecord
    else
      let bytes : Fin n → Byte := fun i => mem (ofs1 + i.val)
      let ofs2 := ofs1 + n
      let len2 := len1 - n
      if has_gateway then
        if len2 < n then Except.error RoutesError.truncatedRecord
        else Except.ok (⟨bytes, pfx, some (fun i => mem (ofs2 + i.val))⟩, 1 + n + n)
      else Except.ok (⟨bytes, pfx, none⟩, 1 + n)

/-- The decode loop: the while loop of routes_message::routes (lines
281-284) over the tag-dispatching read_next_ip_route (lines 193-225).
A zero remaining length at a tag read ends the loop successfully; a tag
outside the four defined values throws; otherwise the typed reader
consumes the record and the route is inserted into the result set.

The has_gateway argument passed for the IPv6 cases is the source's
comparison on line 216, which tests the tag against INAT_IPV4_GATEWAY.

Every iteration consumes at least one byte, so the iteration count is
bounded by the remaining length; fuel equal to the initial remaining
length makes the recursion structural, and the fuel-exhausted branch is
unreachable whenever fuel is at least buf_len. -/
def read_routes_loop : Nat → Mem → Nat → Nat → IpRouteSet → Except RoutesError IpRouteSet
  | 0, _, _, _, acc => Except.ok acc
  | fuel + 1, mem, ofs, buf_len, acc =>
    if buf_len = 0 then Except.ok acc
    else
      let t := (mem ofs).val
      if t = INAT_IPV4 ∨ t = INAT_IPV4_GATEWAY then
        match read_next_ip_route_typed 4 (t == INAT_IPV4_GATEWAY) mem (ofs + 1) (buf_len - 1) with
        | Except.error e => Except.error e
        | Except.ok (r, c) =>
          read_routes_loop fuel mem (ofs + 1 + c) (buf_len - 1 - c) (insertRoute acc (IpRoute.v4 r))
      else if t = INAT_IPV6 ∨ t = INAT_IPV6_GATEWAY then
        match read_next_ip_route_typed 16 (t == INAT_IPV4_GATEWAY) mem (ofs + 1) (buf_len - 1) with
        | Except.error e => Except.error e
        | Except.ok (r, c) =>
          read_routes_loop fuel mem (ofs + 1 + c) (buf_len - 1 - c) (insertRoute acc (IpRoute.v6 r))
      else Except.error RoutesError.unknownRecordType

/-- The decode pass of routes_message::routes (lines 272-284): the
payload remainder past the four version bytes, with the remaining
length computed by the source as length() - sizeof(uint32_t) in size_t
arithmetic, parsed record by record from offset 4. -/
def decode_payload_routes (mem : Mem) (len : Nat) : Except RoutesError IpRouteSet :=
  read_routes_loop (wsub len 4) mem 4 (wsub len 4) []

/-- A routes_message value: the payload bytes (index 0 is the first
payload byte), the declared payload length, and the mutable decode
cache m_routes_cache. -/
structure RoutesMessage where
  payload : Mem
  len : Nat
  cache : Option IpRouteSet

/-- routes_message::version (lines 263-266). -/
def routes_message_version (m : RoutesMessage) : Nat := readBE32 m.payload

/-- The tail of routes_message::routes on the empty-cache path (lines
272-287): on a successful decode the result is stored into the cache
and returned; the thrown error propagates and leaves the message
unchanged. -/
def decode_step (m : RoutesMessage) (d : Except RoutesError IpRouteSet) :
    Except RoutesError IpRouteSet × RoutesMessage :=
  match d with
  | Except.ok r => (Except.ok r, { m with cache := some r })
  | Except.error e => (Except.error e, m)

/-- routes_message::routes (lines 268-290): return the cached set when
present; otherwise run the decode pass over the payload. -/
def routes_message_routes (m : RoutesMessage) :
    Except RoutesError IpRouteSet × RoutesMessage :=
  match m.cache with
  | some r => (Except.ok r, m)
  | none => decode_step m (decode_payload_routes m.payload m.len)

/-- The outcome of constructing a message around a routes() call: a
successful access yields the constructed message, a thrown error
propagates out of the constructor. -/
def construction_result (res : Except RoutesError IpRouteSet × RoutesMessage) :
    Except RoutesError RoutesMessage :=
  match res with
  | (Except.ok _, m) => Except.ok m
  | (Except.error e, _) => Except.error e

/-- The routes_message constructors (lines 292-302): both construct the
message state with an empty cache and immediately call routes(), so a
failing decode propagates out of construction and a constructed value
always carries a populated cache. -/
def mk_routes_message (mem : Mem) (len : Nat) : Except RoutesError RoutesMessage :=
  construction_result (routes_message_routes ⟨mem, len, none⟩)

/-- The all-zero memory, used as a concrete test buffer. -/
def zeroMem : Mem := fun _ => byteOf 0

/-- Address byte width of a route's family: 4 for IPv4, 16 for IPv6. -/
def route_width : IpRoute → Nat
  | IpRoute.v4 _ => 4
  | IpRoute.v6 _ => 16

/-- Whether the route carries a gateway. -/
def route_gateway_present : IpRoute → Bool
  | IpRoute.v4 r => r.gateway.isSome
  | IpRoute.v6 r => r.gateway.isSome

/-- The wire tag the encoder emits for the route, as chosen by
get_address_type from the family and the gateway presence. -/
def route_tag : IpRoute → Nat
  | IpRoute.v4 r => get_address_type_v4 r.gateway.isSome
  | IpRoute.v6 r => get_address_type_v6 r.gateway.isSome

/-- The route's prefix length field. -/
def route_pfx : IpRoute → Nat
  | IpRoute.v4 r => r.pfx_len
  | IpRoute.v6 r => r.pfx_len

/-- The i-th network address byte of the route (zero past the width;
only indices below the width are ever used). -/
def route_addr_byte : IpRoute → Nat → Byte
  | IpRoute.v4 r, i => if h : i < 4 then r.addr ⟨i, h⟩ else byteOf 0
  | IpRoute.v6 r, i => if h : i < 16 then r.addr ⟨i, h⟩ else byteOf 0

theorem setByte_same (m : Mem) (i : Nat) (b : Byte) : setByte m i b i = b := by
  simp [setByte]

theorem setByte_other (m : Mem) (i j : Nat) (b : Byte) (h : j ≠ i) :
    setByte m i b j = m j := by
  simp [setByte, h]

theorem copyBytes_in (m : Mem) (i n j : Nat) (src : Fin n → Byte)
    (h1 : i ≤ j) (h2 : j < i + n) :
    copyBytes m i n src j = src ⟨j - i, by omega⟩ := by
  simp only [copyBytes]
  rw [dif_pos ⟨h1, h2⟩]

theorem copyBytes_out (m : Mem) (i n j : Nat) (src : Fin n → Byte)
    (h : j < i ∨ i + n ≤ j) :
    copyBytes m i n src j = m j := by
  simp only [copyBytes]
  rw [dif_neg (by omega)]

/-- A concrete IPv6 route carrying a gateway: network address zero with
prefix length zero, gateway address zero. -/
def rt6gw : IpRoute := IpRoute.v6 ⟨fun _ => byteOf 0, 0, some (fun _ => byteOf 0)⟩

/-- A concrete payload for the gateway-tag decode defect: a zero version
field, then one record with tag INAT_IPV6_GATEWAY, prefix length 24 and
sixteen address bytes of value 170, with no bytes behind it. -/
def mem_c2 : Mem := fun i =>
  if i = 4 then byteOf 4 else if i = 5 then byteOf 24
  else if 6 ≤ i ∧ i < 22 then byteOf 170 else byteOf 0

/-- A concrete payload for the torn-gateway-record case: a zero version
field, then one record with tag INAT_IPV6_GATEWAY, prefix length 1 and
sixteen address bytes of value 7, with no gateway bytes behind it. -/
def mem_c6 : Mem := fun i =>
  if i = 4 then byteOf 4 else if i = 5 then byteOf 1
  else if 6 ≤ i ∧ i < 22 then byteOf 7 else byteOf 0

/-- C1: the round-trip property fails on the code for a route set that
contains an IPv6 entry with a gateway.  Encoding the singleton set of
rt6gw at version 7 succeeds with 38 payload bytes, but decoding the
bytes just produced does not return the version and set: the decoder
reconstructs the IPv6 record's gateway flag by comparing the tag
against INAT_IPV4_GATEWAY (line 216), reads the record gateway-less,
then misreads the first gateway byte as a record tag and fails with
unknownRecordType. -/
theorem roundtrip_fails_on_ipv6_gateway_route :
    (routes_message_write zeroMem 100 7 [rt6gw]).1 = Except.ok 38 ∧
    decode_payload_routes
      (fun i => (routes_message_write zeroMem 100 7 [rt6gw]).2 (HEADER_LENGTH + i)) 38 =
      Except.error RoutesError.unknownRecordType := by
  constructor
  · decide
  · decide

/-- C2: a record whose tag indicates IPv6 with gateway is not decoded
with a gateway.  On the payload mem_c2, whose single record has tag
INAT_IPV6_GATEWAY and exactly the prefix-length and address bytes but
no gateway bytes, the claim demands a truncatedRecord failure; the code
instead succeeds and the constructed route entry carries no gateway,
because line 216 computes the gateway flag as tag = INAT_IPV4_GATEWAY. -/
theorem ipv6_gateway_record_decodes_without_gateway :
    decode_payload_routes mem_c2 22 =
      Except.ok [IpRoute.v6 ⟨fun _ => byteOf 170, 24, none⟩] := by
  decide

/-- C6: a torn record is not always a hard decode error.  On the
payload mem_c6, a tag byte indicating IPv6 with gateway is present and
zero bytes remain for the gateway after the address, yet the decode
loop terminates successfully with the gateway-less entry instead of
failing with truncatedRecord, again because of the comparison on line
216. -/
theorem torn_gateway_record_decodes_silently :
    decode_payload_routes mem_c6 22 =
      Except.ok [IpRoute.v6 ⟨fun _ => byteOf 7, 1, none⟩] := by
  decide

/-- C4: a declared payload length below 4 does not fail with
truncatedHeader.  At payload length 3 the code computes the remaining
length as 3 - 4 in size_t arithmetic, which wraps to 2 ^ 64 - 1, and
the decode loop proceeds to read a record tag beyond the declared
payload; over an all-zero surrounding memory it fails with
unknownRecordType, not truncatedHeader. -/
theorem short_payload_does_not_fail_with_truncated_header :
    wsub 3 4 = 2 ^ 64 - 1 ∧
    decode_payload_routes zeroMem 3 = Except.error RoutesError.unknownRecordType := by
  constructor
  · decide
  · decide

/-- C3: the encoder writes the version field past the supplied capacity
before any failure.  With capacity 7, one byte short of the minimum
HEADER_LENGTH + 4 = 8 for an empty route set, the operation does fail
with bufferTooSmall, but only after the 4-byte version field has been
stored: the byte at index 7, the first index past the capacity, has
been overwritten from 0 to the low version byte 5. -/
theorem write_version_field_written_past_capacity :
    (routes_message_write zeroMem 7 5 []).1 = Except.error RoutesError.bufferTooSmall ∧
    (routes_message_write zeroMem 7 5 []).2 7 = byteOf 5 ∧
    (routes_message_write zeroMem 7 5 []).2 7 ≠ zeroMem 7 := by
  refine ⟨by decide, by decide, by decide⟩

/-- C5: whenever the decode loop reads a record tag byte whose value is
outside the four defined record kinds, decoding fails with
unknownRecordType.  Stated at any loop state with bytes remaining and
fuel left (the loop always has fuel left while bytes remain, since
every iteration consumes at least one byte). -/
theorem unknown_tag_fails_decode (fuel : Nat) (mem : Mem) (ofs buf_len : Nat)
    (acc : IpRouteSet) (hfuel : fuel ≠ 0) (hlen : buf_len ≠ 0)
    (h1 : (mem ofs).val ≠ 1) (h2 : (mem ofs).val ≠ 2)
    (h3 : (mem ofs).val ≠ 3) (h4 : (mem ofs).val ≠ 4) :
    read_routes_loop fuel mem ofs buf_len acc = Except.error RoutesError.unknownRecordType := by
  cases fuel with
  | zero => exact absurd rfl hfuel
  | succ k =>
    have hA : ¬((mem ofs).val = INAT_IPV4 ∨ (mem ofs).val = INAT_IPV4_GATEWAY) := by
      simp only [INAT_IPV4, INAT_IPV4_GATEWAY]
      omega
    have hB : ¬((mem ofs).val = INAT_IPV6 ∨ (mem ofs).val = INAT_IPV6_GATEWAY) := by
      simp only [INAT_IPV6, INAT_IPV6_GATEWAY]
      omega
    simp only [read_routes_loop, if_neg hlen, if_neg hA, if_neg hB]

/-- Witness for C5: a tag byte of value zero at a loop state with five
bytes remaining fails the decode with unknownRecordType. -/
theorem unknown_tag_fails_decode_witness :
    read_routes_loop 5 zeroMem 0 5 [] = Except.error RoutesError.unknownRecordType :=
  unknown_tag_fails_decode 5 zeroMem 0 5 [] (by decide) (by decide)
    (by decide) (by decide) (by decide) (by decide)

/-- Unfolding of routes_message::routes on an empty cache: the decode
pass runs over the payload. -/
theorem routes_none_eq (pl : Mem) (ln : Nat) :
    routes_message_routes ⟨pl, ln, none⟩ =
      decode_step ⟨pl, ln, none⟩ (decode_payload_routes pl ln) := rfl

/-- C7: the routes accessor is lazy and memoized.  For a message whose
cache is empty and whose decode pass yields a route set, the first
access returns exactly the decoded set and the same message with the
cache populated; an access to the resulting message returns the same
set and the same state again, through the cache branch alone, with no
recomputation.  In particular two consecutive accesses return identical
set content. -/
theorem routes_access_memoized (pl : Mem) (ln : Nat) (r : IpRouteSet)
    (h : decode_payload_routes pl ln = Except.ok r) :
    routes_message_routes ⟨pl, ln, none⟩ = (Except.ok r, ⟨pl, ln, some r⟩) ∧
    (⟨pl, ln, some r⟩ : RoutesMessage).cache = some r ∧
    routes_message_routes ⟨pl, ln, some r⟩ = (Except.ok r, ⟨pl, ln, some r⟩) := by
  refine ⟨?_, rfl, rfl⟩
  rw [routes_none_eq, h]
  rfl

/-- Witness for C7: the empty-payload message of length 4 decodes to the
empty route set on first access, caches it, and returns it again. -/
theorem routes_access_memoized_witness :
    routes_message_routes ⟨zeroMem, 4, none⟩ = (Except.ok [], ⟨zeroMem, 4, some []⟩) ∧
    (⟨zeroMem, 4, some []⟩ : RoutesMessage).cache = some [] ∧
    routes_message_routes ⟨zeroMem, 4, some []⟩ = (Except.ok [], ⟨zeroMem, 4, some []⟩) :=
  routes_access_memoized zeroMem 4 [] (by decide)

/-- C8: a decode failure aborts the whole operation.  When the decode
pass fails, the routes accessor propagates the error and returns the
message unchanged, so no partial route set is returned or left in the
cache; and constructing a message from such a buffer fails at
construction time with the same error, not on first use of the
accessor. -/
theorem decode_failure_aborts_and_construction_fails (mem : Mem) (len : Nat)
    (e : RoutesError) (h : decode_payload_routes mem len = Except.error e) :
    routes_message_routes ⟨mem, len, none⟩ = (Except.error e, ⟨mem, len, none⟩) ∧
    mk_routes_message mem len = Except.error e := by
  have h1 : routes_message_routes ⟨mem, len, none⟩ = (Except.error e, ⟨mem, len, none⟩) := by
    rw [routes_none_eq, h]
    rfl
  refine ⟨h1, ?_⟩
  show construction_result (routes_message_routes ⟨mem, len, none⟩) = Except.error e
  rw [h1]
  rfl

/-- Witness for C8: the all-zero buffer of declared payload length 5 has
one record byte of tag zero; decoding it fails with unknownRecordType,
the accessor leaves the message unchanged, and construction fails. -/
theorem decode_failure_aborts_witness :
    routes_message_routes ⟨zeroMem, 5, none⟩ =
      (Except.error RoutesError.unknownRecordType, ⟨zeroMem, 5, none⟩) ∧
    mk_routes_message zeroMem 5 = Except.error RoutesError.unknownRecordType :=
  decode_failure_aborts_and_construction_fails zeroMem 5 RoutesError.unknownRecordType (by decide)

/-- C9: the size_t arithmetic of the encoder and decoder around the
4-byte version field.  For any capacity that passes the initial
HEADER_LENGTH check but cannot hold the version field, the encoder
proceeds past the header check, stores the version with no further
capacity check, and the remaining length entering the route loop is the
wrapped value buf_len - HEADER_LENGTH + 2 ^ 64 - 4; the per-route
capacity check then compares against that wrapped value, so a
gateway-less IPv4 record passes it.  Likewise the decoder's payload
remainder for a declared length below 4 is the wrapped plen + 2 ^ 64 - 4. -/
theorem write_length_wraps_modulo_word (buf : Mem) (buf_len v plen : Nat)
    (rs : List IpRoute) (r4 : BaseIpRoute 4)
    (h1 : HEADER_LENGTH ≤ buf_len) (h2 : buf_len < HEADER_LENGTH + 4)
    (h3 : plen < 4) (h4 : r4.gateway = none) :
    routes_message_write buf buf_len v rs = write_after_header buf buf_len v rs ∧
    wsub (buf_len - HEADER_LENGTH) 4 = buf_len - HEADER_LENGTH + (2 ^ 64 - 4) ∧
    (routes_message_write buf buf_len v []).2 = storeBE32 buf HEADER_LENGTH v ∧
    (write_route (IpRoute.v4 r4) buf (HEADER_LENGTH + 4)
        (wsub (buf_len - HEADER_LENGTH) 4)).1 = Except.ok 6 ∧
    wsub plen 4 = plen + (2 ^ 64 - 4) := by
  have key : ∀ rs' : List IpRoute,
      routes_message_write buf buf_len v rs' = write_after_header buf buf_len v rs' := by
    intro rs'
    unfold routes_message_write
    rw [if_neg (Nat.not_lt.mpr h1)]
  have hH : HEADER_LENGTH = 4 := rfl
  have hw : wsub (buf_len - HEADER_LENGTH) 4 = buf_len - HEADER_LENGTH + (2 ^ 64 - 4) := by
    rw [hH] at h1 h2 ⊢
    simp only [wsub, WORD_MOD]
    omega
  refine ⟨key rs, hw, ?_, ?_, ?_⟩
  · rw [key []]
    rfl
  · show (write_base_route 4 get_address_type_v4 r4 buf (HEADER_LENGTH + 4)
        (wsub (buf_len - HEADER_LENGTH) 4)).1 = Except.ok 6
    unfold write_base_route
    rw [if_neg (by rw [hw, hH] at *; omega)]
    rw [h4]
  · simp only [wsub, WORD_MOD]
    omega

/-- Witness for C9: at capacity 5 = HEADER_LENGTH + 1 the encoder
proceeds, writes the version, and enters the route loop with the
wrapped remaining length; the check for a six-byte IPv4 record passes
against the wrapped value; the decoder remainder for payload length 2
also wraps. -/
theorem write_length_wraps_modulo_word_witness :
    routes_message_write zeroMem 5 0 [] = write_after_header zeroMem 5 0 [] ∧
    wsub (5 - HEADER_LENGTH) 4 = 5 - HEADER_LENGTH + (2 ^ 64 - 4) ∧
    (routes_message_write zeroMem 5 0 []).2 = storeBE32 zeroMem HEADER_LENGTH 0 ∧
    (write_route (IpRoute.v4 ⟨fun _ => byteOf 0, 0, none⟩) zeroMem (HEADER_LENGTH + 4)
        (wsub (5 - HEADER_LENGTH) 4)).1 = Except.ok 6 ∧
    wsub 2 4 = 2 + (2 ^ 64 - 4) :=
  write_length_wraps_modulo_word zeroMem 5 0 2 [] ⟨fun _ => byteOf 0, 0, none⟩
    (by decide) (by decide) (by decide) rfl

theorem write_record_head_at_tag (n : Nat) (tagOf : Bool → Nat) (r : BaseIpRoute n)
    (buf : Mem) (ofs : Nat) :
    write_record_head n tagOf r buf ofs ofs = byteOf (tagOf r.gateway.isSome) := by
  unfold write_record_head
  rw [copyBytes_out _ _ _ _ _ (by omega), setByte_other _ _ _ _ (by omega), setByte_same]

theorem write_record_head_at_pfx (n : Nat) (tagOf : Bool → Nat) (r : BaseIpRoute n)
    (buf : Mem) (ofs : Nat) :
    write_record_head n tagOf r buf ofs (ofs + 1) = byteOf r.pfx_len := by
  unfold write_record_head
  rw [copyBytes_out _ _ _ _ _ (by omega), setByte_same]

theorem write_record_head_at_addr (n : Nat) (tagOf : Bool → Nat) (r : BaseIpRoute n)
    (buf : Mem) (ofs i : Nat) (hi : i < n) :
    write_record_head n tagOf r buf ofs (ofs + 2 + i) = r.addr ⟨i, hi⟩ := by
  unfold write_record_head
  rw [copyBytes_in _ _ _ _ _ (by omega) (by omega)]
  exact congrArg r.addr (Fin.ext (show ofs + 2 + i - (ofs + 2) = i by omega))

theorem write_record_head_frame (n : Nat) (tagOf : Bool → Nat) (r : BaseIpRoute n)
    (buf : Mem) (ofs j : Nat) (hj : j < ofs ∨ ofs + 2 + n ≤ j) :
    write_record_head n tagOf r buf ofs j = buf j := by
  unfold write_record_head
  rw [copyBytes_out _ _ _ _ _ (by omega), setByte_other _ _ _ _ (by omega),
    setByte_other _ _ _ _ (by omega)]

/-- The gateway capacity failure of the representation visitor: when
the remaining capacity admits the record head but not the gateway, the
visitor throws bufferTooSmall after the head writes have happened. -/
theorem write_base_route_gateway_partial (n : Nat) (tagOf : Bool → Nat) (r : BaseIpRoute n)
    (gw : Fin n → Byte) (buf : Mem) (ofs buf_len : Nat)
    (hg : r.gateway = some gw) (hlo : 2 + n ≤ buf_len) (hhi : buf_len < 2 + 2 * n) :
    write_base_route n tagOf r buf ofs buf_len =
      (Except.error RoutesError.bufferTooSmall, write_record_head n tagOf r buf ofs) := by
  unfold write_base_route
  rw [if_neg (by omega), hg]
  show (if buf_len < 2 + n + n then
      (Except.error RoutesError.bufferTooSmall, write_record_head n tagOf r buf ofs)
    else (Except.ok (2 + n + n), copyBytes (write_record_head n tagOf r buf ofs) (ofs + 2 + n) n gw)) =
    (Except.error RoutesError.bufferTooSmall, write_record_head n tagOf r buf ofs)
  rw [if_pos (by omega)]

/-- C10: encoding a gateway-carrying route into remaining capacity of
at least 2 + address_width but less than 2 + 2 * address_width writes
the record's tag byte, prefix-length byte and network address bytes
before the gateway capacity check fails with bufferTooSmall; exactly
those 2 + address_width bytes of the failed record are written and
every byte outside them is unchanged. -/
theorem gateway_failure_writes_record_head (ir : IpRoute) (buf : Mem) (ofs buf_len : Nat)
    (hg : route_gateway_present ir = true)
    (hlo : 2 + route_width ir ≤ buf_len) (hhi : buf_len < 2 + 2 * route_width ir) :
    (write_route ir buf ofs buf_len).1 = Except.error RoutesError.bufferTooSmall ∧
    (write_route ir buf ofs buf_len).2 ofs = byteOf (route_tag ir) ∧
    (write_route ir buf ofs buf_len).2 (ofs + 1) = byteOf (route_pfx ir) ∧
    (∀ i, i < route_width ir →
      (write_route ir buf ofs buf_len).2 (ofs + 2 + i) = route_addr_byte ir i) ∧
    (∀ j, j < ofs ∨ ofs + 2 + route_width ir ≤ j →
      (write_route ir buf ofs buf_len).2 j = buf j) := by
  cases ir with
  | v4 r =>
    simp only [route_gateway_present] at hg
    simp only [route_width] at hlo hhi ⊢
    obtain ⟨gw, hgw⟩ := Option.isSome_iff_exists.mp hg
    have he : write_route (IpRoute.v4 r) buf ofs buf_len =
        (Except.error RoutesError.bufferTooSmall, write_record_head 4 get_address_type_v4 r buf ofs) :=
      write_base_route_gateway_partial 4 get_address_type_v4 r gw buf ofs buf_len hgw hlo hhi
    rw [he]
    refine ⟨rfl, write_record_head_at_tag 4 get_address_type_v4 r buf ofs,
      write_record_head_at_pfx 4 get_address_type_v4 r buf ofs, ?_, ?_⟩
    · intro i hi
      show write_record_head 4 get_address_type_v4 r buf ofs (ofs + 2 + i) =
        route_addr_byte (IpRoute.v4 r) i
      rw [write_record_head_at_addr 4 get_address_type_v4 r buf ofs i hi]
      simp only [route_addr_byte]
      rw [dif_pos hi]
    · intro j hj
      exact write_record_head_frame 4 get_address_type_v4 r buf ofs j hj
  | v6 r =>
    simp only [route_gateway_present] at hg
    simp only [route_width] at hlo hhi ⊢
    obtain ⟨gw, hgw⟩ := Option.isSome_iff_exists.mp hg
    have he : write_route (IpRoute.v6 r) buf ofs buf_len =
        (Except.error RoutesError.bufferTooSmall, write_record_head 16 get_address_type_v6 r buf ofs) :=
      write_base_route_gateway_partial 16 get_address_type_v6 r gw buf ofs buf_len hgw hlo hhi
    rw [he]
    refine ⟨rfl, write_record_head_at_tag 16 get_address_type_v6 r buf ofs,
      write_record_head_at_pfx 16 get_address_type_v6 r buf ofs, ?_, ?_⟩
    · intro i hi
      show write_record_head 16 get_address_type_v6 r buf ofs (ofs + 2 + i) =
        route_addr_byte (IpRoute.v6 r) i
      rw [write_record_head_at_addr 16 get_address_type_v6 r buf ofs i hi]
      simp only [route_addr_byte]
      rw [dif_pos hi]
    · intro j hj
      exact write_record_head_frame 16 get_address_type_v6 r buf ofs j hj

/-- A concrete gateway-carrying IPv4 route for the C10 witness. -/
def r4gw : BaseIpRoute 4 := ⟨fun _ => byteOf 9, 7, some (fun _ => byteOf 3)⟩

/-- Witness for C10: writing r4gw into capacity 6 = 2 + 4 fails at the
gateway check; the tag, prefix and a sample address byte have been
written, and the byte just past the record head is unchanged. -/
theorem gateway_failure_writes_record_head_witness :
    (write_route (IpRoute.v4 r4gw) zeroMem 0 6).1 = Except.error RoutesError.bufferTooSmall ∧
    (write_route (IpRoute.v4 r4gw) zeroMem 0 6).2 0 = byteOf (route_tag (IpRoute.v4 r4gw)) ∧
    (write_route (IpRoute.v4 r4gw) zeroMem 0 6).2 (0 + 1) = byteOf (route_pfx (IpRoute.v4 r4gw)) ∧
    (write_route (IpRoute.v4 r4gw) zeroMem 0 6).2 (0 + 2 + 1) = route_addr_byte (IpRoute.v4 r4gw) 1 ∧
    (write_route (IpRoute.v4 r4gw) zeroMem 0 6).2 9 = zeroMem 9 :=
  have h := gateway_failure_writes_record_head (IpRoute.v4 r4gw) zeroMem 0 6
    (by decide) (by decide) (by decide)
  ⟨h.1, h.2.1, h.2.2.1, h.2.2.2.1 1 (by decide), h.2.2.2.2 9 (by decide)⟩

end Freelan
